import Mathlib

/-!
Shallow embedding of the ai-voice-studio backend core:
the engine lifecycle manager (src/backend/engines/engine_manager.py),
the WebSocket fan-out broadcaster (src/backend/api/ws.py),
the engine-voices HTTP endpoint (src/backend/api/tts.py), and
the prompt-voice service (src/backend/services/parler_service.py).

Opaque backend effects (model weight transfer, the worker thread, the
liveness probe) are parameters of the embedded functions; each embedded
operation additionally returns the ordered trace of the externally visible
calls it performed, so that ordering claims (unload-before-load,
unload-before-raise) can be stated about the trace.
-/

deriving instance DecidableEq for Except

namespace AVStudio

/-- Exception kinds raised by the embedded code paths. `valueError` carries
the Python ValueError message; `attributeError` carries the missing attribute
name; `loadFailure` stands for whatever the opaque backend raises out of a
failed model load; `generationCancelled` is the service's own
GenerationCancelled exception class. -/
inductive PyErr where
  | valueError (msg : String)
  | attributeError (attr : String)
  | loadFailure (engine : String)
  | generationCancelled
  deriving DecidableEq, Repr

/-- A registered TTS engine. `name` is `get_name()`, `voices` is
`get_available_voices()`, and `loadOk` abstracts whether the opaque
`load_model()` coroutine of this engine succeeds when awaited. -/
structure Engine where
  name : String
  voices : List String
  loadOk : Bool
  deriving DecidableEq, Repr

/-- Externally visible calls made by `EngineManager.activate_engine`:
`unload n` is `await engine.unload_model()` on the engine named `n` running
to completion, `clearActive` is the manager nulling `_active_engine` and
`_active_name`, and `load n ok` is `await engine.load_model()` being invoked
on the engine named `n` with outcome `ok`. -/
inductive EngineEvent where
  | unload (name : String)
  | clearActive
  | load (name : String) (ok : Bool)
  deriving DecidableEq, Repr

/-- State of `EngineManager`: `_engines` is an insertion-ordered dict,
`_active_engine` and `_active_name` are the two Optional fields. -/
structure ManagerState where
  engines : List (String × Engine)
  activeEngine : Option Engine
  activeName : Option String
  deriving DecidableEq, Repr

/-- `EngineManager.__init__`. -/
def ManagerState.init : ManagerState :=
  { engines := [], activeEngine := none, activeName := none }

/-- Python dict assignment `d[k] = v`: replace in place if present, else
append (insertion order preserved). -/
def dictInsert (d : List (String × Engine)) (k : String) (v : Engine) :
    List (String × Engine) :=
  if d.any (fun p => p.1 = k) then
    d.map (fun p => if p.1 = k then (k, v) else p)
  else
    d ++ [(k, v)]

/-- `EngineManager.register`. -/
def ManagerState.register (st : ManagerState) (e : Engine) : ManagerState :=
  { st with engines := dictInsert st.engines e.name e }

/-- `EngineManager.get_engine`: raises `ValueError("Unknown engine: ...")`
for names not in the registry, otherwise returns the registered engine. -/
def get_engine (st : ManagerState) (name : String) : Except PyErr Engine :=
  match st.engines.lookup name with
  | none => .error (.valueError (("Unknown engine: ") ++ name))
  | some e => .ok e

/-- `EngineManager.activate_engine`: fast path when the requested name is
already active and the active engine object is set; otherwise unload the
current engine (if any) and clear the active fields, then look the target up,
load it, and mark it active. Returns the result, the post-call state, and the
trace of engine lifecycle events in order. -/
def activate_engine (st : ManagerState) (name : String) :
    Except PyErr Engine × ManagerState × List EngineEvent :=
  match st.activeEngine with
  | some cur =>
    if st.activeName = some name then
      (.ok cur, st, [])
    else
      let st1 : ManagerState := { st with activeEngine := none, activeName := none }
      let evs : List EngineEvent := [.unload cur.name, .clearActive]
      match get_engine st1 name with
      | .error e => (.error e, st1, evs)
      | .ok eng =>
        if eng.loadOk then
          (.ok eng,
            { st1 with activeEngine := some eng, activeName := some name },
            evs ++ [.load name true])
        else
          (.error (.loadFailure name), st1, evs ++ [.load name false])
  | none =>
    match get_engine st name with
    | .error e => (.error e, st, [])
    | .ok eng =>
      if eng.loadOk then
        (.ok eng,
          { st with activeEngine := some eng, activeName := some name },
          [.load name true])
      else
        (.error (.loadFailure name), st, [.load name false])

/-- `EngineManager.get_active_engine`. -/
def get_active_engine (st : ManagerState) : Option Engine := st.activeEngine

/-- `EngineManager.get_active_name`. -/
def get_active_name (st : ManagerState) : Option String := st.activeName

/-- Which engines are resident in device memory after one lifecycle event:
a completed `unload_model` evicts the engine, a successful `load_model`
makes it resident, a failed `load_model` leaves it unloaded (the engine
contract), and clearing the manager's bookkeeping changes nothing physical. -/
def residentStep (s : List String) : EngineEvent → List String
  | .unload n => s.erase n
  | .clearActive => s
  | .load n ok => if ok then s ++ [n] else s

/-- Residency after a trace of lifecycle events, from an initial set. -/
def residentAfter (init : List String) (evs : List EngineEvent) : List String :=
  evs.foldl residentStep init

/-- Well-formedness of a reachable manager state: the two active fields are
set together, and an active name is always a registered name. Established by
`__init__` and preserved by `register` and `activate_engine`. -/
def ManagerState.WF (st : ManagerState) : Prop :=
  st.activeEngine.isSome = st.activeName.isSome ∧
  ∀ an : String, st.activeName = some an → (st.engines.lookup an).isSome = true

/-- The method names bound in the `EngineManager` class body
(src/backend/engines/engine_manager.py, lines 12 to 66). Attribute lookup of
any other name on an `EngineManager` instance raises AttributeError. -/
def engineManagerMethods : List String :=
  [("__init__"), ("register"), ("get_engine"), ("get_available_engines"),
   ("activate_engine"), ("get_active_engine"), ("get_active_name")]

/-- The attribute `ParlerVoiceService.load` invokes on the engine manager to
evict the active engine (src/backend/services/parler_service.py, line 129:
`await engine_manager.deactivate()`). -/
def parlerEvictionAttr : String := "deactivate"

/-- A WebSocket connection held by the broadcaster. `sendFails` abstracts
whether `await connection.send_json(message)` raises for this connection
(the message content is the same for every connection in one broadcast, so
the failure is a property of the connection). -/
structure Conn where
  id : ℕ
  sendFails : Bool
  deriving DecidableEq, Repr

/-- State of `ConnectionManager` (src/backend/api/ws.py): the live list of
active connections, in connection order. -/
structure ConnectionManager where
  active_connections : List Conn
  deriving DecidableEq, Repr

/-- `ConnectionManager.disconnect`: remove the first occurrence of the
connection from the list if it is present, otherwise do nothing. -/
def ConnectionManager.disconnect (m : ConnectionManager) (c : Conn) :
    ConnectionManager :=
  if c ∈ m.active_connections then
    { active_connections := m.active_connections.erase c }
  else m

/-- `ConnectionManager.broadcast`: attempt `send_json` on every connection in
the list in order, collecting the ones whose send raised; then call
`disconnect` on each collected connection. Returns the list of connections
that received the message and the post-call manager. -/
def ConnectionManager.broadcast (m : ConnectionManager) :
    List Conn × ConnectionManager :=
  let delivered := m.active_connections.filter (fun c => !c.sendFails)
  let disconnected := m.active_connections.filter (fun c => c.sendFails)
  (delivered, disconnected.foldl ConnectionManager.disconnect m)

/-- Python `str.split()` with no argument: split on whitespace runs and drop
empty pieces. Used as `len(sample_text.split())`. -/
def pyWordCount (s : String) : ℕ :=
  ((s.split Char.isWhitespace).filter (fun w => w ≠ ("" : String))).length

/-- `est_seconds = max(word_count * 0.5, 3.0)` from
`ParlerVoiceService.generate_preview._generate` (parler_service.py line 255).
The Python floats involved are small dyadic rationals, so ℚ models them
exactly. -/
def est_seconds (word_count : ℕ) : ℚ := max ((word_count : ℚ) * 0.5) 3

/-- `max_seconds = min(est_seconds * 2, 30.0)` (parler_service.py line 256). -/
def max_seconds (word_count : ℕ) : ℚ := min (est_seconds word_count * 2) 30

/-- `max_tokens = int(max_seconds * 86)` (parler_service.py line 257); the
value is nonnegative, so Python `int()` truncation coincides with floor. -/
def max_tokens (word_count : ℕ) : ℤ := Int.floor (max_seconds word_count * 86)

/-- One entry of the `VOICE_MODELS` table (parler_service.py lines 25 to 62). -/
structure VoiceModelConfig where
  id : String
  hf_name : String
  name : String
  quality : ℕ
  speed : ℕ
  vram_gb : ℚ
  download_gb : ℚ
  description : String
  sample_rate : ℕ
  default : Bool
  deriving DecidableEq, Repr

/-- The `parler-mini-v1.1` entry of `VOICE_MODELS`. -/
def parlerMiniV11 : VoiceModelConfig :=
  { id := "parler-mini-v1.1"
    hf_name := "parler-tts/parler-tts-mini-v1.1"
    name := "Parler Mini v1.1"
    quality := 4
    speed := 4
    vram_gb := 1.1
    download_gb := 2.2
    description := "Best balance of quality and speed. Good for most voices."
    sample_rate := 44100
    default := true }

/-- The `parler-large-v1` entry of `VOICE_MODELS`. -/
def parlerLargeV1 : VoiceModelConfig :=
  { id := "parler-large-v1"
    hf_name := "parler-tts/parler-tts-large-v1"
    name := "Parler Large v1"
    quality := 5
    speed := 2
    vram_gb := 2.3
    download_gb := 4.5
    description := "Highest quality but slow (~5-7 min). Rich detail, natural prosody, accurate accents."
    sample_rate := 44100
    default := false }

/-- The `parler-mini-v1` entry of `VOICE_MODELS`. -/
def parlerMiniV1 : VoiceModelConfig :=
  { id := "parler-mini-v1"
    hf_name := "parler-tts/parler-tts-mini-v1"
    name := "Parler Mini v1"
    quality := 3
    speed := 4
    vram_gb := 1.1
    download_gb := 2.2
    description := "Fast generation, smaller download. Some mispronunciations. Good for quick tests."
    sample_rate := 44100
    default := false }

/-- `VOICE_MODELS` as an insertion-ordered dict. -/
def VOICE_MODELS : List (String × VoiceModelConfig) :=
  [(("parler-mini-v1.1"), parlerMiniV11),
   (("parler-large-v1"), parlerLargeV1),
   (("parler-mini-v1"), parlerMiniV1)]

/-- State of `ParlerVoiceService`: `_loaded`, `_model`, `_tokenizer` and
`_loaded_model_id`. The loaded model and tokenizer objects are represented by
the id of the model they were loaded from. -/
structure ParlerState where
  loaded : Bool
  model : Option String
  tokenizer : Option String
  loaded_model_id : Option String
  deriving DecidableEq, Repr

/-- Externally visible steps of the prompt-voice service, in call order:
WebSocket progress broadcasts (stage and percent), the heartbeat progress
message emitted on each 5-second poll timeout, setting the cancel event,
awaiting the worker future after cancelling, and a call of
`ParlerVoiceService.unload`. -/
inductive PEvent where
  | progress (stage : String) (percent : ℕ)
  | heartbeat
  | cancelSet
  | workerAwaited
  | unloadCalled
  deriving DecidableEq, Repr

/-- `ParlerVoiceService.unload`: no-op when not loaded, otherwise drop the
model and tokenizer and clear the loaded flags. -/
def ParlerVoiceService.unload (st : ParlerState) : ParlerState :=
  if st.loaded = false then st
  else { loaded := false, model := none, tokenizer := none, loaded_model_id := none }

/-- `ParlerVoiceService.load`: skip when the same model is already loaded;
unload first when a different model is loaded; raise ValueError for an id not
in `VOICE_MODELS`; then, if a TTS engine is active, attempt
`engine_manager.deactivate()` — an attribute the `EngineManager` class does
not define, so the call raises AttributeError; otherwise run the opaque
weight download and transfer (`backendLoadOk` abstracts its outcome) and mark
the model loaded. Returns the result, the post-call state, and the trace. -/
def ParlerVoiceService.load (st : ParlerState) (engineActive : Bool)
    (backendLoadOk : Bool) (model_id : String) :
    Except PyErr Unit × ParlerState × List PEvent :=
  if st.loaded = true ∧ st.loaded_model_id = some model_id then
    (.ok (), st, [])
  else
    let st1 := if st.loaded = true then ParlerVoiceService.unload st else st
    match VOICE_MODELS.lookup model_id with
    | none => (.error (.valueError (("Unknown model: ") ++ model_id)), st1, [])
    | some _ =>
      let evs1 : List PEvent := [.progress ("loading_model") 10]
      if engineActive = true then
        (.error (.attributeError parlerEvictionAttr), st1, evs1)
      else
        let evs2 := evs1 ++ [PEvent.progress ("loading_model") 30]
        if backendLoadOk = false then
          (.error (.loadFailure model_id), st1, evs2)
        else
          (.ok (),
            { loaded := true, model := some model_id,
              tokenizer := some model_id, loaded_model_id := some model_id },
            evs2 ++ [PEvent.progress ("loading_model") 80,
                     PEvent.progress ("model_ready") 100])

/-- Outcome of one `request.is_disconnected()` probe during a poll timeout:
still connected, disconnected, or the probe itself raised (the code swallows
the exception and continues as if connected). -/
inductive ProbeResult where
  | connected
  | disconnected
  | probeRaises
  deriving DecidableEq, Repr

/-- The heartbeat wait loop of `generate_preview` (parler_service.py lines
284 to 309). `ts` lists the probe outcome of each successive 5-second poll
timeout; after the listed timeouts the worker future completes with
`workerResult`. When the request is present and a probe reports
disconnection, the loop sets the cancel event, awaits the worker future, and
breaks. Returns the `cancelled` flag, the awaited audio, and the trace. -/
def heartbeatLoop (hasRequest : Bool) (workerResult : Option ℕ) :
    List ProbeResult → Bool × Option ℕ × List PEvent
  | [] => (false, workerResult, [])
  | p :: rest =>
    if hasRequest = true ∧ p = ProbeResult.disconnected then
      (true, workerResult, [.cancelSet, .workerAwaited])
    else
      let r := heartbeatLoop hasRequest workerResult rest
      (r.1, r.2.1, .heartbeat :: r.2.2)

/-- `ParlerVoiceService.generate_preview`: resolve the model config (falling
back to the mini default for unknown ids), load the model, run the worker
with the heartbeat/disconnect loop, and on exit either unload then raise
GenerationCancelled (when cancelled or the worker returned the None
sentinel) or save the audio, unload, and return its duration in seconds.
The produced audio is abstracted by its sample count `n`; the written file
path is I/O outside the embedding. -/
def ParlerVoiceService.generate_preview (st : ParlerState)
    (engineActive : Bool) (backendLoadOk : Bool) (hasRequest : Bool)
    (timeouts : List ProbeResult) (workerResult : Option ℕ)
    (model_id : String) : Except PyErr ℚ × ParlerState × List PEvent :=
  let cfg := (VOICE_MODELS.lookup model_id).getD parlerMiniV11
  let lr := ParlerVoiceService.load st engineActive backendLoadOk model_id
  match lr.1 with
  | .error e => (.error e, lr.2.1, lr.2.2)
  | .ok _ =>
    let evs0 := lr.2.2 ++ [PEvent.progress ("generating") 50]
    let lp := heartbeatLoop hasRequest workerResult timeouts
    if lp.1 = true then
      (.error .generationCancelled, ParlerVoiceService.unload lr.2.1,
        evs0 ++ lp.2.2 ++ [PEvent.unloadCalled])
    else
      match lp.2.1 with
      | none =>
        (.error .generationCancelled, ParlerVoiceService.unload lr.2.1,
          evs0 ++ lp.2.2 ++ [PEvent.unloadCalled])
      | some n =>
        (.ok ((n : ℚ) / (cfg.sample_rate : ℚ)),
          ParlerVoiceService.unload lr.2.1,
          evs0 ++ lp.2.2 ++ [PEvent.progress ("complete") 100,
                             PEvent.unloadCalled])

/-- `HTTPException` as raised by the API layer: status code and detail. -/
structure HTTPException where
  status_code : ℕ
  detail : String
  deriving DecidableEq, Repr

/-- `list_engine_voices` (src/backend/api/tts.py lines 29 to 37): look the
engine up, return its voices; a ValueError from the lookup is converted to
an HTTP 404 with the error text. (Any other exception kind would propagate
to the framework as a 500; `get_engine` only ever raises ValueError.) -/
def list_engine_voices (st : ManagerState) (name : String) :
    Except HTTPException (List String) :=
  match get_engine st name with
  | .ok e => .ok e.voices
  | .error (.valueError msg) => .error { status_code := 404, detail := msg }
  | .error _ => .error { status_code := 500, detail := "" }

/-- Fixture: an available engine named A whose `load_model` succeeds. -/
def engA : Engine := { name := "A", voices := [("a1")], loadOk := true }

/-- Fixture: an engine named B whose `load_model` raises (missing backend). -/
def engB : Engine := { name := "B", voices := [], loadOk := false }

/-- Fixture: a fresh manager with A and B registered. -/
def st0 : ManagerState := (ManagerState.init.register engA).register engB

/-- Fixture: the manager after a successful `activate_engine("A")`. -/
def stA : ManagerState := (activate_engine st0 ("A")).2.1

/-- Fixture: the prompt-voice service before any load. -/
def pst0 : ParlerState :=
  { loaded := false, model := none, tokenizer := none, loaded_model_id := none }

/-- Claim C1: the spec requires the Engine Manager to provide a
`deactivate()` operation (unload the active engine, return to the
no-engine-active state, no-op when idle). The `EngineManager` class defines
no such method, so the attribute lookup fails, and the one caller that
depends on it — `ParlerVoiceService.load`, evicting the active engine to
free the shared resource — raises AttributeError instead of deactivating.
The code contradicts its own caller: this is a code bug, evaluated here at
the failing input (service idle, some engine active, valid model id). -/
theorem C1_deactivate_missing :
    parlerEvictionAttr ∉ engineManagerMethods ∧
    (ParlerVoiceService.load pst0 true true ("parler-mini-v1.1")).1
      = .error (.attributeError parlerEvictionAttr) := by decide

/-- Claim C4: when the requested engine name is registered and currently
active (and the active-engine object is set), `activate_engine` returns the
very engine instance that is active, leaves the state unchanged, and
performs no `unload_model` or `load_model` call (the event trace is empty). -/
theorem C4_idempotent_fast_path (st : ManagerState) (name : String) (e : Engine)
    (hreg : st.engines.lookup name = some e)
    (hact : st.activeEngine = some e) (hname : st.activeName = some name) :
    (activate_engine st name).1 = .ok e ∧
    (activate_engine st name).2.1 = st ∧
    (activate_engine st name).2.2 = [] := by
  obtain ⟨engs, ae, an⟩ := st
  cases hact
  cases hname
  simp [activate_engine]

/-- Claim C4 witness: repeating `activate_engine("A")` on the fixture state
where A is active is a no-op returning A with an empty trace. -/
theorem C4_idempotent_fast_path_witness :
    (activate_engine stA ("A")).1 = .ok engA ∧
    (activate_engine stA ("A")).2.1 = stA ∧
    (activate_engine stA ("A")).2.2 = [] :=
  C4_idempotent_fast_path stA ("A") engA (by decide) (by decide) (by decide)

/-- Claim C2: whenever `activate_engine(name)` actually reaches the target
engine's `load_model` (the fast path does not apply) and that load raises,
the error propagates and the manager is left with no active engine: both
`get_active_engine()` and `get_active_name()` yield none afterwards (so
`get_active_name()` in particular does not return the failed engine's name).
Well-formedness of the starting state (active fields set together, active
name registered) holds for every reachable manager state. -/
theorem C2_load_failure_fail_safe (st : ManagerState) (name : String)
    (eng : Engine) (hwf : st.WF) (hreg : st.engines.lookup name = some eng)
    (hfail : eng.loadOk = false)
    (hslow : ¬(st.activeName = some name ∧ st.activeEngine.isSome = true)) :
    (activate_engine st name).1 = .error (.loadFailure name) ∧
    get_active_engine (activate_engine st name).2.1 = none ∧
    get_active_name (activate_engine st name).2.1 = none := by
  obtain ⟨engs, ae, an⟩ := st
  cases ae with
  | none =>
    cases an with
    | none =>
      simp [activate_engine, get_engine, hreg, hfail, get_active_engine,
        get_active_name]
    | some a =>
      exact absurd hwf.1 (by simp)
  | some cur =>
    have hne : an ≠ some name := by
      intro h
      exact hslow ⟨by simpa using h, by simp⟩
    simp [activate_engine, get_engine, hreg, hfail, hne, get_active_engine,
      get_active_name]

/-- Claim C2 witness: on the fixture state where A is active, activating the
failing engine B surfaces the load failure and leaves neither A nor B
active. -/
theorem C2_load_failure_fail_safe_witness :
    (activate_engine stA ("B")).1 = .error (.loadFailure ("B")) ∧
    get_active_engine (activate_engine stA ("B")).2.1 = none ∧
    get_active_name (activate_engine stA ("B")).2.1 = none :=
  C2_load_failure_fail_safe stA ("B") engB
    ⟨by decide, by intro an h; cases h; decide⟩ (by decide) (by decide)
    (by decide)

/-- Claim C10: calling `activate_engine` with an unregistered name while an
engine is active first runs the active engine's `unload_model` to completion
and clears the active fields, and only then raises the unknown-engine
ValueError: the failed call leaves no engine active, and the event trace of
the call is exactly the unload followed by the state clear. -/
theorem C10_unknown_engine_evicts_first (st : ManagerState) (name : String)
    (cur : Engine) (hwf : st.WF) (hact : st.activeEngine = some cur)
    (hunk : st.engines.lookup name = none) :
    (activate_engine st name).1
      = .error (.valueError (("Unknown engine: ") ++ name)) ∧
    get_active_engine (activate_engine st name).2.1 = none ∧
    get_active_name (activate_engine st name).2.1 = none ∧
    (activate_engine st name).2.2
      = [EngineEvent.unload cur.name, EngineEvent.clearActive] := by
  obtain ⟨engs, ae, an⟩ := st
  cases hact
  have hne : an ≠ some name := by
    intro h
    have h2 := hwf.2 name (by simpa using h)
    rw [hunk] at h2
    simp at h2
  simp [activate_engine, get_engine, hunk, hne, get_active_engine,
    get_active_name]

/-- Claim C10 witness: activating the unregistered name "nope" on the
fixture state where A is active evicts A (unload then clear) before the
unknown-engine error surfaces. -/
theorem C10_unknown_engine_evicts_first_witness :
    (activate_engine stA ("nope")).1
      = .error (.valueError (("Unknown engine: ") ++ ("nope"))) ∧
    get_active_engine (activate_engine stA ("nope")).2.1 = none ∧
    get_active_name (activate_engine stA ("nope")).2.1 = none ∧
    (activate_engine stA ("nope")).2.2
      = [EngineEvent.unload engA.name, EngineEvent.clearActive] :=
  C10_unknown_engine_evicts_first stA ("nope") engA
    ⟨by decide, by intro an h; cases h; decide⟩ (by decide) (by decide)

/-- Claim C8: for every name not in the engine registry, `get_engine` raises
`ValueError("Unknown engine: ...")` rather than returning a default, and the
voices endpoint converts exactly that error into an HTTP 404 with the same
detail; for every registered name, `get_engine` returns the registered
engine and the endpoint returns its voices. -/
theorem C8_unknown_engine_lookup (st : ManagerState) (name : String) :
    (st.engines.lookup name = none →
      get_engine st name = .error (.valueError (("Unknown engine: ") ++ name)) ∧
      list_engine_voices st name
        = .error { status_code := 404, detail := ("Unknown engine: ") ++ name }) ∧
    (∀ e : Engine, st.engines.lookup name = some e →
      get_engine st name = .ok e ∧ list_engine_voices st name = .ok e.voices) := by
  constructor
  · intro h
    simp [get_engine, list_engine_voices, h]
  · intro e h
    simp [get_engine, list_engine_voices, h]

/-- Claim C8 witness: on the fixture registry, the unregistered name "nope"
yields the ValueError and the 404, while the registered name "A" yields
engine A and its voices. -/
theorem C8_unknown_engine_lookup_witness :
    (get_engine st0 ("nope")
        = .error (.valueError (("Unknown engine: ") ++ ("nope"))) ∧
      list_engine_voices st0 ("nope")
        = .error { status_code := 404, detail := ("Unknown engine: ") ++ ("nope") }) ∧
    (get_engine st0 ("A") = .ok engA ∧
      list_engine_voices st0 ("A") = .ok engA.voices) :=
  ⟨(C8_unknown_engine_lookup st0 ("nope")).1 (by decide),
   (C8_unknown_engine_lookup st0 ("A")).2 engA (by decide)⟩

/-- Helper: `disconnect` always reduces to a plain list `erase` (erasing an
absent element is the identity). -/
lemma disconnect_erase (m : ConnectionManager) (c : Conn) :
    m.disconnect c = ⟨m.active_connections.erase c⟩ := by
  obtain ⟨l⟩ := m
  unfold ConnectionManager.disconnect
  split
  · rfl
  · next h => simp [List.erase_of_not_mem h]

/-- Helper: folding `disconnect` over a list of connections is folding
`List.erase` over the underlying list. -/
lemma foldl_disconnect_erase (ds : List Conn) (m : ConnectionManager) :
    ds.foldl ConnectionManager.disconnect m
      = ⟨ds.foldl List.erase m.active_connections⟩ := by
  induction ds generalizing m with
  | nil => obtain ⟨l⟩ := m; rfl
  | cons d ds ih => rw [List.foldl_cons, List.foldl_cons, ih, disconnect_erase]

/-- Helper: erasing a batch of elements, none of which equals the head,
commutes with the head. -/
lemma foldl_erase_cons_of_ne {α : Type} [DecidableEq α] :
    ∀ (ds : List α) (a : α) (t : List α), (∀ x ∈ ds, x ≠ a) →
      ds.foldl List.erase (a :: t) = a :: ds.foldl List.erase t
  | [], _, _, _ => rfl
  | d :: ds, a, t, h => by
    have hd : d ≠ a := h d (List.mem_cons_self d ds)
    rw [List.foldl_cons, List.foldl_cons]
    have had : (a :: t).erase d = a :: t.erase d := by
      rw [List.erase_cons]
      simp [Ne.symm hd]
    rw [had]
    exact foldl_erase_cons_of_ne ds a (t.erase d)
      (fun x hx => h x (List.mem_cons_of_mem d hx))

/-- Helper: erasing, one by one, every element of a list that satisfies `p`
leaves exactly the elements that do not satisfy `p`. -/
lemma foldl_erase_filter {α : Type} [DecidableEq α] (p : α → Bool) :
    ∀ l : List α, (l.filter p).foldl List.erase l = l.filter (fun c => !(p c))
  | [] => rfl
  | a :: t => by
    by_cases hpa : p a = true
    · have h1 : (a :: t).filter p = a :: t.filter p := by
        simp [List.filter_cons, hpa]
      have h2 : (a :: t).filter (fun c => !(p c)) = t.filter (fun c => !(p c)) := by
        simp [List.filter_cons, hpa]
      rw [h1, h2, List.foldl_cons, List.erase_cons_head]
      exact foldl_erase_filter p t
    · have hpa2 : p a = false := by simpa using hpa
      have h1 : (a :: t).filter p = t.filter p := by
        simp [List.filter_cons, hpa2]
      have h2 : (a :: t).filter (fun c => !(p c))
          = a :: t.filter (fun c => !(p c)) := by
        simp [List.filter_cons, hpa2]
      rw [h1, h2]
      rw [foldl_erase_cons_of_ne (t.filter p) a t ?hne]
      · rw [foldl_erase_filter p t]
      case hne =>
        intro x hx hxa
        have hpx : p x = true := (List.mem_filter.mp hx).2
        rw [hxa, hpa2] at hpx
        cases hpx

/-- Claim C6: one `broadcast` call delivers the event to exactly the
connections whose send does not raise (in list order — a failing subscriber
never blocks the others), and by the end of the call every subscriber whose
delivery raised has been removed from the subscriber set while every
non-failing subscriber is still in it. -/
theorem C6_broadcast_isolation (m : ConnectionManager) :
    (ConnectionManager.broadcast m).1
      = m.active_connections.filter (fun c => !c.sendFails) ∧
    (∀ c ∈ m.active_connections, c.sendFails = true →
      c ∉ (ConnectionManager.broadcast m).2.active_connections) ∧
    (∀ c ∈ m.active_connections, c.sendFails = false →
      c ∈ (ConnectionManager.broadcast m).2.active_connections) := by
  obtain ⟨l⟩ := m
  have hfin : (ConnectionManager.broadcast ⟨l⟩).2
      = ⟨l.filter (fun c => !(c.sendFails))⟩ := by
    show (l.filter (fun c => c.sendFails)).foldl ConnectionManager.disconnect ⟨l⟩
      = ⟨l.filter (fun c => !(c.sendFails))⟩
    rw [foldl_disconnect_erase]
    exact congrArg ConnectionManager.mk (foldl_erase_filter _ l)
  refine ⟨rfl, ?_, ?_⟩
  · intro c _ hf hmem
    rw [hfin] at hmem
    have h2 : (!(c.sendFails)) = true := (List.mem_filter.mp hmem).2
    rw [hf] at h2
    cases h2
  · intro c hc hf
    rw [hfin]
    exact List.mem_filter.mpr ⟨hc, by rw [hf]; rfl⟩

/-- Claim C6 witness: broadcasting to three subscribers of which the second
raises delivers to the other two and removes the raising one. -/
theorem C6_broadcast_isolation_witness :
    (ConnectionManager.broadcast ⟨[⟨1, false⟩, ⟨2, true⟩, ⟨3, false⟩]⟩).1
      = [⟨1, false⟩, ⟨3, false⟩] ∧
    (⟨2, true⟩ : Conn) ∉
      (ConnectionManager.broadcast
        ⟨[⟨1, false⟩, ⟨2, true⟩, ⟨3, false⟩]⟩).2.active_connections ∧
    (⟨1, false⟩ : Conn) ∈
      (ConnectionManager.broadcast
        ⟨[⟨1, false⟩, ⟨2, true⟩, ⟨3, false⟩]⟩).2.active_connections := by
  refine ⟨?_, ?_, ?_⟩
  · exact ((C6_broadcast_isolation
      ⟨[⟨1, false⟩, ⟨2, true⟩, ⟨3, false⟩]⟩).1).trans (by decide)
  · exact (C6_broadcast_isolation
      ⟨[⟨1, false⟩, ⟨2, true⟩, ⟨3, false⟩]⟩).2.1 ⟨2, true⟩ (by decide) rfl
  · exact (C6_broadcast_isolation
      ⟨[⟨1, false⟩, ⟨2, true⟩, ⟨3, false⟩]⟩).2.2 ⟨1, false⟩ (by decide) rfl

/-- Helper: the seconds clamp computes an integer value, namely
`min (max word_count 6) 30`. -/
lemma max_seconds_eq_nat (w : ℕ) :
    max_seconds w = ((min (max w 6) 30 : ℕ) : ℚ) := by
  unfold max_seconds est_seconds
  have h2 : (w : ℚ) * 0.5 * 2 = (w : ℚ) := by ring
  have h1 : max ((w : ℚ) * 0.5) 3 * 2 = max ((w : ℚ)) 6 := by
    rw [max_mul_of_nonneg _ _ (by norm_num : (0:ℚ) ≤ 2), h2]
    norm_num
  rw [h1]
  push_cast
  rfl

/-- Helper: the token budget in closed form: `86 * min (max word_count 6) 30`. -/
lemma max_tokens_closed (w : ℕ) :
    max_tokens w = ((86 * min (max w 6) 30 : ℕ) : ℤ) := by
  unfold max_tokens
  rw [max_seconds_eq_nat]
  have h : ((min (max w 6) 30 : ℕ) : ℚ) * 86
      = (((86 * min (max w 6) 30 : ℕ) : ℤ) : ℚ) := by
    push_cast
    ring
  rw [h, Int.floor_intCast]

/-- Claim C7: for every sample text, the computed `max_new_tokens` equals
`int(min(max(word_count * 0.5, 3.0) * 2, 30.0) * 86)` and is clamped into
the band [516, 2580] — at most the 30-second cap times 86 tokens/second and
at least the 3-second floor times the 2x factor times 86 — no matter how
long the text is. -/
theorem C7_token_budget_clamped (s : String) :
    max_tokens (pyWordCount s)
      = Int.floor (min (max ((pyWordCount s : ℚ) * 0.5) 3 * 2) 30 * 86) ∧
    516 ≤ max_tokens (pyWordCount s) ∧ max_tokens (pyWordCount s) ≤ 2580 := by
  refine ⟨rfl, ?_, ?_⟩
  · rw [max_tokens_closed]
    have h6 : 6 ≤ min (max (pyWordCount s) 6) 30 :=
      le_min (le_max_right _ _) (by norm_num)
    exact_mod_cast Nat.le_trans (by norm_num) (Nat.mul_le_mul_left 86 h6)
  · rw [max_tokens_closed]
    have h30 : min (max (pyWordCount s) 6) 30 ≤ 30 := min_le_right _ _
    exact_mod_cast Nat.le_trans (Nat.mul_le_mul_left 86 h30) (by norm_num)

/-- Helper: a switch trace (unload, clear, then at most one load) never has
more than one engine resident at any point, starting from the current engine
resident. -/
lemma resident_switch_le_one (c : String) (tail : List EngineEvent)
    (htail : tail = [] ∨ ∃ n ok, tail = [EngineEvent.load n ok]) :
    ∀ k : ℕ,
      (residentAfter [c]
        ((EngineEvent.unload c :: EngineEvent.clearActive :: tail).take k)).length
        ≤ 1
  | 0 => by simp [residentAfter]
  | 1 => by simp [residentAfter, residentStep, List.erase_cons_head]
  | Nat.succ (Nat.succ m) => by
    rcases htail with h | ⟨n, ok, h⟩ <;> subst h
    · simp [residentAfter, residentStep, List.erase_cons_head]
    · match m with
      | 0 => simp [residentAfter, residentStep, List.erase_cons_head]
      | Nat.succ m2 =>
        cases ok <;>
          simp [residentAfter, residentStep, List.erase_cons_head]

/-- Claim C3: when a different registered engine is active,
`activate_engine` runs the active engine's `unload_model` to completion and
clears the active state strictly before any `load_model` call: the event
trace starts with the unload and the clear, everything after them is a load,
and at no prefix of the trace is more than one engine resident. -/
theorem C3_unload_before_load (st : ManagerState) (name an : String)
    (cur : Engine) (hact : st.activeEngine = some cur)
    (hname : st.activeName = some an) (hreg : st.engines.lookup an = some cur)
    (hne : an ≠ name) :
    (∃ rest, (activate_engine st name).2.2
        = EngineEvent.unload cur.name :: EngineEvent.clearActive :: rest ∧
      ∀ ev ∈ rest, ∃ n ok, ev = EngineEvent.load n ok) ∧
    ∀ k : ℕ,
      (residentAfter [cur.name]
        (((activate_engine st name).2.2).take k)).length ≤ 1 := by
  obtain ⟨engs, ae, an2⟩ := st
  cases hact
  cases hname
  rcases hl : engs.lookup name with _ | eng
  · have htr : (activate_engine ⟨engs, some cur, some an⟩ name).2.2
        = EngineEvent.unload cur.name :: EngineEvent.clearActive :: [] := by
      simp [activate_engine, get_engine, hl, hne]
    rw [htr]
    exact ⟨⟨[], rfl, by simp⟩, resident_switch_le_one cur.name [] (Or.inl rfl)⟩
  · cases hok : eng.loadOk
    · have htr : (activate_engine ⟨engs, some cur, some an⟩ name).2.2
          = EngineEvent.unload cur.name :: EngineEvent.clearActive ::
            [EngineEvent.load name false] := by
        simp [activate_engine, get_engine, hl, hne, hok]
      rw [htr]
      refine ⟨⟨[EngineEvent.load name false], rfl, ?_⟩,
        resident_switch_le_one cur.name _ (Or.inr ⟨name, false, rfl⟩)⟩
      intro ev hev
      simp at hev
      exact ⟨name, false, hev⟩
    · have htr : (activate_engine ⟨engs, some cur, some an⟩ name).2.2
          = EngineEvent.unload cur.name :: EngineEvent.clearActive ::
            [EngineEvent.load name true] := by
        simp [activate_engine, get_engine, hl, hne, hok]
      rw [htr]
      refine ⟨⟨[EngineEvent.load name true], rfl, ?_⟩,
        resident_switch_le_one cur.name _ (Or.inr ⟨name, true, rfl⟩)⟩
      intro ev hev
      simp at hev
      exact ⟨name, true, hev⟩

/-- Claim C3 witness: switching from the active engine A to B on the fixture
state unloads A and clears the state before B's load, with at most one
engine resident at every prefix of the trace. -/
theorem C3_unload_before_load_witness :
    (∃ rest, (activate_engine stA ("B")).2.2
        = EngineEvent.unload engA.name :: EngineEvent.clearActive :: rest ∧
      ∀ ev ∈ rest, ∃ n ok, ev = EngineEvent.load n ok) ∧
    ∀ k : ℕ,
      (residentAfter [engA.name]
        (((activate_engine stA ("B")).2.2).take k)).length ≤ 1 :=
  C3_unload_before_load stA ("B") ("A") engA (by decide) (by decide)
    (by decide) (by decide)

/-- Helper: when a disconnect is observed on some poll timeout, the
heartbeat loop ends cancelled and its trace ends with setting the cancel
event and awaiting the worker. -/
lemma heartbeatLoop_disc (wr : Option ℕ) :
    ∀ ts : List ProbeResult, ProbeResult.disconnected ∈ ts →
      (heartbeatLoop true wr ts).1 = true ∧
      ∃ pre, (heartbeatLoop true wr ts).2.2
          = pre ++ [PEvent.cancelSet, PEvent.workerAwaited]
  | [], h => absurd h (List.not_mem_nil _)
  | p :: rest, h => by
    by_cases hp : p = ProbeResult.disconnected
    · subst hp
      constructor
      · simp [heartbeatLoop]
      · exact ⟨[], by simp [heartbeatLoop]⟩
    · have hr : ProbeResult.disconnected ∈ rest := by
        rcases List.mem_cons.mp h with h1 | h2
        · exact absurd h1.symm hp
        · exact h2
      obtain ⟨h1, pre, h2⟩ := heartbeatLoop_disc wr rest hr
      constructor
      · simp [heartbeatLoop, hp, h1]
      · exact ⟨PEvent.heartbeat :: pre, by simp [heartbeatLoop, hp, h2]⟩

/-- Helper: a successful `ParlerVoiceService.load` leaves the loaded flag
set, and `load` never raises GenerationCancelled itself. -/
lemma load_shape (st : ParlerState) (eA bOk : Bool) (mid : String) :
    ((ParlerVoiceService.load st eA bOk mid).1 = .ok () →
      (ParlerVoiceService.load st eA bOk mid).2.1.loaded = true) ∧
    (ParlerVoiceService.load st eA bOk mid).1
      ≠ .error PyErr.generationCancelled := by
  unfold ParlerVoiceService.load
  repeat' split
  all_goals refine ⟨fun hx => ?_, by simp⟩
  all_goals simp_all

/-- Helper: unloading a loaded service clears the flag and drops the model. -/
lemma unload_clears (s : ParlerState) (h : s.loaded = true) :
    (ParlerVoiceService.unload s).loaded = false ∧
    (ParlerVoiceService.unload s).model = none := by
  unfold ParlerVoiceService.unload
  rw [h]
  simp

/-- Claim C5: when the liveness probe reports disconnection on some poll
timeout of the heartbeat wait loop (and the load phase succeeded so the loop
is reached), `generate_preview` never returns a generation result: it
terminates with the GenerationCancelled kind — distinct from the other error
kinds — and its trace ends with setting the cancellation token, awaiting the
worker, and invoking `unload` before the error surfaces. -/
theorem C5_disconnect_cancels (st : ParlerState) (eA bOk : Bool)
    (ts : List ProbeResult) (wr : Option ℕ) (mid : String)
    (hload : (ParlerVoiceService.load st eA bOk mid).1 = .ok ())
    (hdisc : ProbeResult.disconnected ∈ ts) :
    (∀ d : ℚ,
      (ParlerVoiceService.generate_preview st eA bOk true ts wr mid).1
        ≠ .ok d) ∧
    (ParlerVoiceService.generate_preview st eA bOk true ts wr mid).1
      = .error PyErr.generationCancelled ∧
    ∃ pre, (ParlerVoiceService.generate_preview st eA bOk true ts wr mid).2.2
      = pre ++ [PEvent.cancelSet, PEvent.workerAwaited, PEvent.unloadCalled] := by
  obtain ⟨hc, pre, hpre⟩ := heartbeatLoop_disc wr ts hdisc
  rcases hl : ParlerVoiceService.load st eA bOk mid with ⟨lr1, lst, levs⟩
  rw [hl] at hload
  have hlr : lr1 = Except.ok () := hload
  subst hlr
  have hif : ParlerVoiceService.generate_preview st eA bOk true ts wr mid
      = (.error PyErr.generationCancelled,
         ParlerVoiceService.unload lst,
         (levs ++ [PEvent.progress ("generating") 50])
           ++ (heartbeatLoop true wr ts).2.2 ++ [PEvent.unloadCalled]) := by
    simp [ParlerVoiceService.generate_preview, hl, hc]
  rw [hif]
  refine ⟨by simp, rfl, ?_⟩
  rw [hpre]
  refine ⟨(levs ++ [PEvent.progress ("generating") 50]) ++ pre, ?_⟩
  simp

/-- Claim C5 witness: a run that observes a disconnect on its second poll
timeout is cancelled, and its trace ends with cancel, worker wait, unload. -/
theorem C5_disconnect_cancels_witness :
    (ParlerVoiceService.generate_preview pst0 false true true
        [ProbeResult.connected, ProbeResult.disconnected] (some 44100)
        ("parler-mini-v1.1")).1 = .error PyErr.generationCancelled ∧
    ∃ pre, (ParlerVoiceService.generate_preview pst0 false true true
        [ProbeResult.connected, ProbeResult.disconnected] (some 44100)
        ("parler-mini-v1.1")).2.2
      = pre ++ [PEvent.cancelSet, PEvent.workerAwaited, PEvent.unloadCalled] :=
  (C5_disconnect_cancels pst0 false true
    [ProbeResult.connected, ProbeResult.disconnected] (some 44100)
    ("parler-mini-v1.1") (by decide) (by decide)).2

/-- Claim C9: every `generate_preview` call that returns a result, and every
call that raises GenerationCancelled, leaves the service unloaded on exit:
the loaded flag is false and the model reference is dropped. -/
theorem C9_model_released (st : ParlerState) (eA bOk hr : Bool)
    (ts : List ProbeResult) (wr : Option ℕ) (mid : String)
    (hret : (∃ d : ℚ,
        (ParlerVoiceService.generate_preview st eA bOk hr ts wr mid).1
          = .ok d) ∨
      (ParlerVoiceService.generate_preview st eA bOk hr ts wr mid).1
        = .error PyErr.generationCancelled) :
    (ParlerVoiceService.generate_preview st eA bOk hr ts wr mid).2.1.loaded
        = false ∧
    (ParlerVoiceService.generate_preview st eA bOk hr ts wr mid).2.1.model
        = none := by
  have hshape := load_shape st eA bOk mid
  rcases hl : ParlerVoiceService.load st eA bOk mid with ⟨lr1, lst, levs⟩
  rw [hl] at hshape
  cases lr1 with
  | error e =>
    have hg : ParlerVoiceService.generate_preview st eA bOk hr ts wr mid
        = (.error e, lst, levs) := by
      simp [ParlerVoiceService.generate_preview, hl]
    rw [hg] at hret
    rcases hret with ⟨d, hd⟩ | hd
    · exact absurd hd (by simp)
    · have he : e = PyErr.generationCancelled := by simpa using hd
      exact absurd (by rw [he] : (Except.error e : Except PyErr Unit)
        = .error PyErr.generationCancelled) hshape.2
  | ok u =>
    cases u
    have hld : lst.loaded = true := hshape.1 rfl
    simp only [ParlerVoiceService.generate_preview, hl]
    split
    · exact unload_clears lst hld
    · split
      · exact unload_clears lst hld
      · exact unload_clears lst hld

/-- Claim C9 witness: a cancelled concrete run exits with the model
unloaded and dropped. -/
theorem C9_model_released_witness :
    (ParlerVoiceService.generate_preview pst0 false true true
        [ProbeResult.disconnected] (some 44100)
        ("parler-mini-v1.1")).2.1.loaded = false ∧
    (ParlerVoiceService.generate_preview pst0 false true true
        [ProbeResult.disconnected] (some 44100)
        ("parler-mini-v1.1")).2.1.model = none :=
  C9_model_released pst0 false true true [ProbeResult.disconnected]
    (some 44100) ("parler-mini-v1.1") (Or.inr (by decide))

end AVStudio
